import Mathlib

/-!
Verification development for the RAG admin-backend core.

The definitions below are a shallow embedding of the JavaScript source:
  - admin-backend/services/provisioningService.js (toSlug, joinUrl,
    buildResourceId, provisionResourcesForUser, ensureUserResources)
  - admin-backend/middleware/auth.js (the auth middleware)
  - admin-backend/controllers/authController.js (registerUser, loginUser)
  - admin-backend/controllers/botController.js (runBot)
  - admin-backend/jobs/botJob.js (runBotForUser)

JavaScript strings are modelled as Lean String, absent values as Option,
JS truthiness of a string value as nonemptiness, and external library
primitives (the SHA-1 digest, bcrypt comparison, JWT signing and
verification, the HTTP client outcome, the document store) as explicit
function or data parameters, so that every embedded operation is a pure,
executable Lean function.
-/

namespace RAGAdmin

/-- JS truthiness of a possibly-absent string: `undefined`/`null` and the
empty string are falsy, every other string is truthy. -/
def isTruthyS : Option String → Bool
  | none => false
  | some s => !(s == "")

/-- JS `a || b` for a possibly-absent string `a` with default `b`:
falls back to the default when `a` is absent or empty. -/
def jsOr (v : Option String) (d : String) : String :=
  match v with
  | none => d
  | some s => if s == "" then d else s

/-- JS `parseInt(env) || d` for a possibly-absent numeric value:
absent (or NaN) and `0` both fall back to the default. -/
def jsOrNat (v : Option Nat) (d : Nat) : Nat :=
  match v with
  | none => d
  | some n => if n == 0 then d else n

/-- Substring scan: does `sub` occur contiguously inside the list? -/
def containsSeq (sub : List Char) : List Char → Bool
  | [] => sub.isEmpty
  | c :: cs => sub.isPrefixOf (c :: cs) || containsSeq sub cs

/-- JS `String.prototype.includes`: substring containment. -/
def jsIncludes (s sub : String) : Bool :=
  containsSeq sub.toList s.toList

/-- JS `String.prototype.split(' ')` on a character list: splits at every
single space; adjacent spaces yield empty fields; the empty string yields
one empty field. -/
def splitSp : List Char → List (List Char)
  | [] => [[]]
  | c :: cs =>
    if c = ' ' then [] :: splitSp cs
    else
      match splitSp cs with
      | [] => [[c]]
      | r :: rs => (c :: r) :: rs

/-- JS `s.split(' ')` as an operation on strings. -/
def jsSplitSpace (s : String) : List String :=
  (splitSp s.toList).map List.asString

/-- JS whitespace (the characters removed by `String.prototype.trim`
that can occur in usernames of interest): space, tab, LF, VT, FF, CR,
and NBSP. -/
def isJsWs (c : Char) : Bool :=
  c == ' ' || c == '\t' || c == '\n' || c == '\x0b' || c == '\x0c' ||
    c == '\r' || c == '\xa0'

/-- Drop a run of characters satisfying `p` from the end of a list. -/
def dropTrailing (p : Char → Bool) (l : List Char) : List Char :=
  (l.reverse.dropWhile p).reverse

/-- JS `String.prototype.trim` on a character list: strip leading and
trailing whitespace. -/
def jsTrimL (l : List Char) : List Char :=
  dropTrailing isJsWs (l.dropWhile isJsWs)

/-- JS `String.prototype.trim` on strings. -/
def jsTrim (s : String) : String :=
  (jsTrimL s.toList).asString

/-- JS `String.prototype.toLowerCase`, restricted to the ASCII letters
that the slug alphabet can produce. -/
def jsToLower (c : Char) : Char :=
  if 65 ≤ c.toNat ∧ c.toNat ≤ 90 then Char.ofNat (c.toNat + 32) else c

/-- JS `String.prototype.toLowerCase` on whole strings, applied
character by character. -/
def jsToLowerStr (s : String) : String :=
  (s.toList.map jsToLower).asString

/-- Membership in the slug alphabet `[a-z0-9]`. -/
def isAlnum (c : Char) : Bool :=
  ('a' ≤ c && c ≤ 'z') || ('0' ≤ c && c ≤ '9')

/-- The global replace `/[^a-z0-9]+/g → '-'` as a character-list scan.
The flag records whether the scan is inside a non-alphanumeric run whose
replacement hyphen has already been emitted. -/
def collapseFrom (inRun : Bool) : List Char → List Char
  | [] => []
  | c :: cs =>
    if isAlnum c then c :: collapseFrom false cs
    else if inRun then collapseFrom true cs
    else '-' :: collapseFrom true cs

/-- The global replace `/[^a-z0-9]+/g → '-'`: every maximal run of
non-alphanumeric characters becomes a single hyphen. -/
def collapseNonAlnum (l : List Char) : List Char :=
  collapseFrom false l

/-- One hyphen-stripping half of `/^-+|-+$/g → ''`: drop leading hyphens. -/
def dropLeadH (l : List Char) : List Char :=
  l.dropWhile (fun c => c == '-')

/-- The other half of `/^-+|-+$/g → ''`: drop trailing hyphens. -/
def dropTrailH (l : List Char) : List Char :=
  dropTrailing (fun c => c == '-') l

/-- The replace `/^-+|-+$/g → ''`: strip hyphens from both ends. -/
def stripHyphens (l : List Char) : List Char :=
  dropLeadH (dropTrailH l)

/-- `toSlug` from provisioningService.js: absent and empty inputs yield
the fixed fallback; otherwise trim, lowercase, collapse non-alphanumeric
runs to hyphens, strip boundary hyphens, and fall back on empty. -/
def toSlug (value : Option String) : String :=
  match value with
  | none => "user"
  | some s =>
    if s == "" then "user"
    else
      let r := stripHyphens (collapseNonAlnum ((jsTrimL s.toList).map jsToLower))
      if r = [] then "user" else r.asString

/-- Drop every trailing slash, as in `base.replace(/\/+$/, '')`. -/
def stripTrailingSlashes (s : String) : String :=
  (dropTrailing (fun c => c == '/') s.toList).asString

/-- `joinUrl` from provisioningService.js: join a base URL and a path
without duplicating the separator. -/
def joinUrl (base path : String) : String :=
  let sanitizedBase := stripTrailingSlashes base
  let sanitizedPath := if path.startsWith "/" then path else "/" ++ path
  sanitizedBase ++ sanitizedPath

/-- JS `s.slice(0, n)`: the first `n` characters. -/
def jsSliceTo (n : Nat) (s : String) : String :=
  (s.toList.take n).asString

/-- JS `s.slice(-n)`: the last `n` characters (the whole string when it
is shorter). -/
def jsSliceLast (n : Nat) (s : String) : String :=
  (s.toList.drop (s.toList.length - n)).asString

/-- `buildResourceId` from provisioningService.js, parameterised by the
SHA-1 hex digest primitive `h` (`crypto.createHash('sha1')...digest('hex')`):
slug of the username, a hyphen, and the first ten digest characters of
`userId ++ ":" ++ username`. -/
def buildResourceId (h : String → String) (userId username : String) : String :=
  toSlug (some username) ++ "-" ++ jsSliceTo 10 (h (userId ++ ":" ++ username))

/-- The environment configuration consumed by the provisioning service:
the four `process.env.DEFAULT_*` base addresses, possibly unset. -/
structure Env where
  databaseBase : Option String
  botBase : Option String
  schedulerBase : Option String
  scraperBase : Option String

/-- The error object thrown by `provisionResourcesForUser` when the
identity is missing: a message plus the `statusCode` field set on it. -/
structure ProvisionError where
  message : String
  statusCode : Nat
  deriving DecidableEq

/-- The `{ userId, username }` argument of `provisionResourcesForUser`;
either field may be absent. -/
structure ProvisionInput where
  userId : Option String
  username : Option String

/-- The locator set returned by `provisionResourcesForUser`. -/
structure Resources where
  databaseUri : String
  botEndpoint : String
  schedulerEndpoint : String
  scraperEndpoint : String
  deriving DecidableEq

/-- `provisionResourcesForUser` from provisioningService.js,
parameterised by the SHA-1 hex digest `h` and the environment `env`.
A falsy `userId` or `username` throws the 500 precondition error;
otherwise the four locators are computed deterministically from the
resource identifier and the configured base addresses. -/
def provisionResourcesForUser (h : String → String) (env : Env)
    (p : ProvisionInput) : Except ProvisionError Resources :=
  match p.userId, p.username with
  | some uid, some un =>
    if uid == "" || un == "" then
      .error ⟨"Cannot provision resources without userId and username", 500⟩
    else
      let resourceId := buildResourceId h uid un
      let slug := toSlug (some un)
      let databaseBase := jsOr env.databaseBase "mongodb://localhost:27017"
      let botBase := jsOr env.botBase "http://localhost:8000"
      let schedulerBase := jsOr env.schedulerBase "http://localhost:9000"
      let scraperBase := jsOr env.scraperBase "http://localhost:7000"
      let databaseName := "rag_" ++ slug ++ "_" ++ jsSliceLast 6 resourceId
      .ok {
        databaseUri := stripTrailingSlashes databaseBase ++ "/" ++ databaseName
        botEndpoint := joinUrl botBase ("/api/bots/" ++ resourceId)
        schedulerEndpoint := joinUrl schedulerBase ("/api/schedules/" ++ resourceId)
        scraperEndpoint := joinUrl scraperBase ("/api/scrape/" ++ resourceId)
      }
  | _, _ =>
    .error ⟨"Cannot provision resources without userId and username", 500⟩

/-- An account document of the user collection, as the provisioning
service and the auth controllers see it: the Mongo `_id`, the schema
fields, and the four optional resource locators written back by
provisioning. -/
structure Account where
  _id : String
  name : String
  email : String
  username : Option String
  password : String
  databaseUri : Option String
  botEndpoint : Option String
  schedulerEndpoint : Option String
  scraperEndpoint : Option String
  deriving DecidableEq

/-- `[databaseUri, botEndpoint, schedulerEndpoint, scraperEndpoint].some(v => !v)`
from ensureUserResources: does any locator need provisioning? -/
def needsProvisioning (a : Account) : Bool :=
  !(isTruthyS a.databaseUri && isTruthyS a.botEndpoint &&
    isTruthyS a.schedulerEndpoint && isTruthyS a.scraperEndpoint)

/-- `ensureUserResources` from provisioningService.js. The result pairs
the returned document with a flag recording whether `userDoc.save()` was
invoked (i.e. whether anything was written to the store). A thrown
provisioning error propagates before any field is set or saved. -/
def ensureUserResources (h : String → String) (env : Env) :
    Option Account → Except ProvisionError (Option Account × Bool)
  | none => .ok (none, false)
  | some a =>
    if needsProvisioning a then
      match provisionResourcesForUser h env ⟨some a._id, a.username⟩ with
      | .error e => .error e
      | .ok r =>
        .ok (some { a with
          databaseUri := some r.databaseUri
          botEndpoint := some r.botEndpoint
          schedulerEndpoint := some r.schedulerEndpoint
          scraperEndpoint := some r.scraperEndpoint }, true)
    else
      .ok (some a, false)

/-- The decoded JWT payload signed at login and attached by the auth
middleware. -/
structure TokenPayload where
  userId : String
  username : String
  email : String
  deriving DecidableEq

/-- The outcome of `jwt.verify(token, secret)`: success with the decoded
payload, or one of the thrown failure kinds (signature/format failure
`JsonWebTokenError`, or `TokenExpiredError`). -/
inductive VerifyOutcome where
  | ok (payload : TokenPayload)
  | invalidErr
  | expiredErr
  deriving DecidableEq

/-- The result of the auth middleware: a 401 JSON error response, or the
request continuing with the decoded payload attached as `req.user`. -/
inductive AuthResult where
  | denied (status : Nat) (error : String)
  | allowed (user : TokenPayload)
  deriving DecidableEq

/-- The auth middleware from middleware/auth.js, parameterised by the
`jwt.verify` primitive. `token = authHeader && authHeader.split(' ')[1]`;
a falsy token is rejected as missing; any verification failure is caught
by the single catch block. -/
def authCore (verify : String → VerifyOutcome) (token : Option String) :
    AuthResult :=
  if isTruthyS token then
    match verify (token.getD "") with
    | .ok payload => .allowed payload
    | .invalidErr => .denied 401 "Token is not valid"
    | .expiredErr => .denied 401 "Token is not valid"
  else
    .denied 401 "No token, authorization denied"

/-- The auth middleware proper: extract the token and run the check. -/
def authMiddleware (verify : String → VerifyOutcome)
    (authHeader : Option String) : AuthResult :=
  authCore verify (authHeader.bind (fun hd => (jsSplitSpace hd).get? 1))

/-- The response of `loginUser` from authController.js: an error JSON
with a status code, or the signed token and the public user summary. -/
inductive LoginResponse where
  | err (status : Nat) (error : String)
  | ok (token : String) (id name username email : String)
  deriving DecidableEq

/-- `loginUser` from authController.js, parameterised by the store
contents, the `bcrypt.compare` primitive and the `jwt.sign` primitive.
Unknown username and failed password comparison take the two distinct
early returns of the source, each producing its own 401 response. -/
def loginUser (compare : String → String → Bool)
    (sign : TokenPayload → String) (store : List Account)
    (username password : String) : LoginResponse :=
  match store.find? (fun a => a.username == some (jsTrim username)) with
  | none => .err 401 "Invalid credentials"
  | some user =>
    if compare password user.password then
      .ok (sign ⟨user._id, user.username.getD "", user.email⟩)
        user._id user.name (user.username.getD "") user.email
    else
      .err 401 "Invalid credentials"

/-- The error raised by `user.save()`: a mongoose `ValidationError`
carrying per-field messages, or the MongoDB server error raised by a
unique-index violation (`E11000`, code 11000), whose `name` is not
`ValidationError`. -/
inductive DbWriteError where
  | validationError (msgs : List String)
  | mongoServerError (code : Nat) (field : String)
  deriving DecidableEq

/-- `err.name` of a store write error. -/
def DbWriteError.errName : DbWriteError → String
  | .validationError _ => "ValidationError"
  | .mongoServerError _ _ => "MongoServerError"

/-- Modelled store write for register: the unique indexes on `email` and
`username` are the final arbiter, raising the duplicate-key server error
when the collection already holds the value at write time. -/
def saveUser (storeAtSave : List Account) (email username : String) :
    Except DbWriteError Unit :=
  if storeAtSave.any (fun a => a.email == email) then
    .error (.mongoServerError 11000 "email")
  else if storeAtSave.any (fun a => a.username == some username) then
    .error (.mongoServerError 11000 "username")
  else
    .ok ()

/-- The response of `registerUser` from authController.js. -/
inductive RegisterResponse where
  | conflict (error field : String)
  | badRequest (error : String)
  | created (name username email : String)
  | serverError (error : String)
  deriving DecidableEq

/-- The input body of `registerUser`. -/
structure RegisterInput where
  name : String
  email : String
  username : String
  password : String

/-- `registerUser` from authController.js, parameterised by the store
snapshot seen by the two pre-check `findOne` queries and by the snapshot
enforced by the unique indexes at `user.save()` time (the two differ
exactly when a concurrent registration commits in between). The catch
block turns a `ValidationError` into a 400 with the joined messages and
every other thrown error into the generic 500. -/
def registerUser (hash : String → String)
    (storeAtCheck storeAtSave : List Account) (input : RegisterInput) :
    RegisterResponse :=
  let emailLower := jsToLowerStr input.email
  let existingEmail := storeAtCheck.find? (fun a => a.email == emailLower)
  let existingUsername :=
    storeAtCheck.find? (fun a => a.username == some input.username)
  match existingEmail with
  | some _ => .conflict "Email already in use" "email"
  | none =>
    match existingUsername with
    | some _ => .conflict "Username already in use" "username"
    | none =>
      let _hashed := hash input.password
      match saveUser storeAtSave (jsTrim emailLower) (jsTrim input.username) with
      | .ok () =>
        .created (jsTrim input.name) (jsTrim input.username) (jsTrim emailLower)
      | .error e =>
        if e.errName == "ValidationError" then
          match e with
          | .validationError msgs => .badRequest (String.intercalate ", " msgs)
          | _ => .serverError "Server error during registration"
        else
          .serverError "Server error during registration"

/-- The JSON body of a FastAPI response, with the fields botJob.js
inspects; every field may be absent. -/
structure RespData where
  detail : Option String
  answer : Option String
  sources : Option String
  confidence : Option String
  metadata : Option String

/-- The outcome of the single `axios.post` call in botJob.js under
`validateStatus: status < 500`: a resolved response (status below 500,
possibly with no JSON body), or a rejection with the code / response /
request shape the catch block inspects. -/
inductive AxiosOutcome where
  | resolved (status : Nat) (data : Option RespData)
  | refused
  | timedOut
  | dnsFail
  | errResponse (status : Nat) (detail statusText : Option String)
  | noResponse
  | otherErr (msg : String)

/-- The botJob.js configuration read from the environment. -/
structure BotConfig where
  botApiUrl : Option String
  timeoutEnv : Option Nat

/-- The value returned by `runBotForUser` on success: the answer, the
session id, and the optional fields spread in only when truthy. -/
structure BotResult where
  answer : String
  session_id : String
  sources : Option String
  confidence : Option String
  metadata : Option String
  deriving DecidableEq

/-- `runBotForUser` from jobs/botJob.js, parameterised by the clock
reading (`Date.now()`) and the HTTP outcome. Errors thrown inside the
try block (non-200 status, malformed body) are caught by the job's own
catch block; as plain Errors without `code`/`response`/`request` they
fall to the final branch and are re-thrown as `Bot job failed: ...`. -/
def runBotForUser (cfg : BotConfig) (now : Nat) (outcome : AxiosOutcome)
    (userId _input : String) : Except String BotResult :=
  if isTruthyS cfg.botApiUrl then
    let botApiUrl := cfg.botApiUrl.getD ""
    let sessionId := "user_" ++ userId ++ "_" ++ toString now
    let timeout := jsOrNat cfg.timeoutEnv 30000
    match outcome with
    | .resolved status data =>
      if status ≠ 200 then
        .error ("Bot job failed: Bot API error (" ++ toString status ++ "): "
          ++ jsOr (data.bind RespData.detail) "Unknown error")
      else
        match data with
        | none => .error "Bot job failed: Invalid response format from bot service"
        | some d =>
          match d.answer with
          | none => .error "Bot job failed: Invalid response format from bot service"
          | some ans =>
            .ok {
              answer := ans
              session_id := sessionId
              sources := if isTruthyS d.sources then d.sources else none
              confidence := if isTruthyS d.confidence then d.confidence else none
              metadata := if isTruthyS d.metadata then d.metadata else none
            }
    | .refused =>
      .error ("Cannot connect to FastAPI bot at " ++ botApiUrl
        ++ " - service may not be running")
    | .timedOut =>
      .error ("Bot request timeout after " ++ toString timeout
        ++ "ms - query may be too complex")
    | .dnsFail =>
      .error ("Cannot resolve bot service hostname: " ++ botApiUrl)
    | .errResponse status detail statusText =>
      .error ("Bot API error (" ++ toString status ++ "): "
        ++ jsOr detail (jsOr statusText "Unknown error"))
    | .noResponse =>
      .error "No response from bot API - connection or timeout issue"
    | .otherErr msg =>
      .error ("Bot job failed: " ++ msg)
  else
    .error "FASTAPI_BOT_URL not configured - cannot connect to bot service"

/-- The HTTP response produced by the `runBot` controller. -/
inductive BotHttpResponse where
  | ok (answer session_id : String) (sources confidence metadata : Option String)
      (user_id : String)
  | err (status : Nat) (error : String)
  deriving DecidableEq

/-- `runBot` from controllers/botController.js: the job result is
forwarded on success; a thrown error message is classified by substring
matching into 503 (contains `Cannot connect`), 504 (contains `timeout`),
or the generic 500 carrying the raw message. -/
def runBot (jobOutcome : Except String BotResult) (userId : String) :
    BotHttpResponse :=
  match jobOutcome with
  | .ok r => .ok r.answer r.session_id r.sources r.confidence r.metadata userId
  | .error msg =>
    if jsIncludes msg "Cannot connect" then
      .err 503 "Bot service is currently unavailable. Please try again later."
    else if jsIncludes msg "timeout" then
      .err 504 "Bot request timed out. Please try again."
    else
      .err 500 (if msg == "" then "Failed to run bot" else msg)

/-- The composed bot endpoint: `runBot` applied to the job outcome, as
wired by routes/bot.js. -/
def runBotEndpoint (cfg : BotConfig) (now : Nat) (outcome : AxiosOutcome)
    (userId input : String) : BotHttpResponse :=
  runBot (runBotForUser cfg now outcome userId input) userId

/-- Written from the specification text, for comparison with `toSlug`:
the slug is the username lowercased, with every maximal run of
non-alphanumeric characters collapsed to a single hyphen and
leading/trailing hyphens removed; if this result is empty (or the input
is absent) the slug is the fixed default term. -/
def toSlugSpec (value : Option String) : String :=
  match value with
  | none => "user"
  | some s =>
    let r := stripHyphens (collapseNonAlnum (s.toList.map jsToLower))
    if r = [] then "user" else r.asString

/-- All four resource locators absent: the state of a freshly registered
account (the register controller never sets them). -/
def allAbsent (a : Account) : Prop :=
  a.databaseUri = none ∧ a.botEndpoint = none ∧
    a.schedulerEndpoint = none ∧ a.scraperEndpoint = none

/-- All four resource locators present (truthy). -/
def allPresent (a : Account) : Prop :=
  isTruthyS a.databaseUri = true ∧ isTruthyS a.botEndpoint = true ∧
    isTruthyS a.schedulerEndpoint = true ∧ isTruthyS a.scraperEndpoint = true

/-- The accounts reachable through the public operations: a freshly
registered account carries no locators, and the state is closed under
successful `ensureUserResources` calls (a thrown provisioning error
aborts before any field is set or saved, leaving the account as it
was). -/
inductive Reachable (h : String → String) (env : Env) : Account → Prop where
  | registered (a : Account)
      (h1 : a.databaseUri = none) (h2 : a.botEndpoint = none)
      (h3 : a.schedulerEndpoint = none) (h4 : a.scraperEndpoint = none) :
      Reachable h env a
  | ensured (a a' : Account) (saved : Bool)
      (ha : Reachable h env a)
      (hstep : ensureUserResources h env (some a) = .ok (some a', saved)) :
      Reachable h env a'

theorem ne_empty_iff_data (s : String) : s ≠ "" ↔ s.data ≠ [] := by
  constructor
  · intro h hd
    exact h (by cases s; simp_all)
  · intro h he
    subst he
    exact h rfl

theorem append_ne_empty_left (a b : String) (ha : a ≠ "") : a ++ b ≠ "" := by
  rw [ne_empty_iff_data] at ha ⊢
  rw [String.data_append]
  simp [ha]

theorem append_ne_empty_right (a b : String) (hb : b ≠ "") : a ++ b ≠ "" := by
  rw [ne_empty_iff_data] at hb ⊢
  rw [String.data_append]
  simp [hb]

theorem joinUrl_ne_empty (base path : String) (hp : path ≠ "") :
    joinUrl base path ≠ "" := by
  unfold joinUrl
  by_cases hs : path.startsWith "/"
  · simp only [hs, if_pos]
    exact append_ne_empty_right _ _ hp
  · simp only [hs, Bool.false_eq_true, if_neg, not_false_iff]
    exact append_ne_empty_right _ _ (append_ne_empty_left _ _ (by decide))

theorem provision_ok_fields (h : String → String) (env : Env)
    (p : ProvisionInput) (r : Resources)
    (hp : provisionResourcesForUser h env p = .ok r) :
    r.databaseUri ≠ "" ∧ r.botEndpoint ≠ "" ∧
      r.schedulerEndpoint ≠ "" ∧ r.scraperEndpoint ≠ "" := by
  rcases p with ⟨uid, un⟩
  cases uid with
  | none => simp [provisionResourcesForUser] at hp
  | some u =>
    cases un with
    | none => simp [provisionResourcesForUser] at hp
    | some n =>
      rw [provisionResourcesForUser] at hp
      simp only at hp
      split at hp
      · exact absurd hp (by simp)
      · rw [Except.ok.injEq] at hp
        subst hp
        refine ⟨?_, ?_, ?_, ?_⟩
        · exact append_ne_empty_left _ _ (append_ne_empty_right _ _ (by decide))
        · exact joinUrl_ne_empty _ _ (append_ne_empty_left _ _ (by decide))
        · exact joinUrl_ne_empty _ _ (append_ne_empty_left _ _ (by decide))
        · exact joinUrl_ne_empty _ _ (append_ne_empty_left _ _ (by decide))

theorem ensure_noop_aux (h : String → String) (env : Env) (a : Account)
    (h1 : isTruthyS a.databaseUri = true) (h2 : isTruthyS a.botEndpoint = true)
    (h3 : isTruthyS a.schedulerEndpoint = true)
    (h4 : isTruthyS a.scraperEndpoint = true) :
    ensureUserResources h env (some a) = .ok (some a, false) := by
  simp [ensureUserResources, needsProvisioning, h1, h2, h3, h4]

/-- C7: ensureUserResources is a no-op on an already-provisioned account:
when all four locators are set (truthy), the account is returned
unchanged and `save()` is never invoked. -/
theorem ensure_noop_when_provisioned (h : String → String) (env : Env)
    (a : Account)
    (h1 : isTruthyS a.databaseUri = true) (h2 : isTruthyS a.botEndpoint = true)
    (h3 : isTruthyS a.schedulerEndpoint = true)
    (h4 : isTruthyS a.scraperEndpoint = true) :
    ensureUserResources h env (some a) = .ok (some a, false) :=
  ensure_noop_aux h env a h1 h2 h3 h4

theorem ensure_noop_when_provisioned_witness :
    ensureUserResources (fun s => s) ⟨none, none, none, none⟩
      (some { _id := "u1", name := "Al", email := "al@x.io",
              username := some "alice", password := "h",
              databaseUri := some "mongodb://localhost:27017/rag_alice_456789",
              botEndpoint := some "http://localhost:8000/api/bots/alice-0123456789",
              schedulerEndpoint := some "http://localhost:9000/api/schedules/alice-0123456789",
              scraperEndpoint := some "http://localhost:7000/api/scrape/alice-0123456789" }) =
      .ok (some { _id := "u1", name := "Al", email := "al@x.io",
                  username := some "alice", password := "h",
                  databaseUri := some "mongodb://localhost:27017/rag_alice_456789",
                  botEndpoint := some "http://localhost:8000/api/bots/alice-0123456789",
                  schedulerEndpoint := some "http://localhost:9000/api/schedules/alice-0123456789",
                  scraperEndpoint := some "http://localhost:7000/api/scrape/alice-0123456789" },
          false) :=
  ensure_noop_when_provisioned _ _ _ rfl rfl rfl rfl

/-- C8: a falsy (absent or empty) userId or username makes
provisionResourcesForUser fail with the 500 precondition error, so no
locator set is produced. -/
theorem provision_missing_identity (h : String → String) (env : Env)
    (p : ProvisionInput)
    (hp : isTruthyS p.userId = false ∨ isTruthyS p.username = false) :
    provisionResourcesForUser h env p =
      .error ⟨"Cannot provision resources without userId and username", 500⟩ := by
  rcases p with ⟨uid, un⟩
  cases uid with
  | none => rfl
  | some u =>
    cases un with
    | none => rfl
    | some n =>
      simp only [isTruthyS, Bool.not_eq_false', beq_iff_eq] at hp
      rw [provisionResourcesForUser]
      simp only
      rcases hp with hp | hp <;> simp [hp]

theorem provision_missing_identity_witness :
    provisionResourcesForUser (fun s => s) ⟨none, none, none, none⟩
      ⟨some "", some "alice"⟩ =
      .error ⟨"Cannot provision resources without userId and username", 500⟩ :=
  provision_missing_identity _ _ _ (Or.inl (by decide))

/-- C2: evaluation of the composed bot endpoint on the four downstream
failure shapes. Connection refusal maps to 503 and a timeout to 504 as
the claim states; a 200 response lacking `answer` maps to 500; but a
downstream HTTP 500 also maps to HTTP 500 (the controller has no 502
branch), contradicting the claimed 502. -/
theorem bot_failure_status_eval :
    runBotEndpoint ⟨some "http://localhost:8000", none⟩ 0 .refused "u7" "q" =
      .err 503 "Bot service is currently unavailable. Please try again later." ∧
    runBotEndpoint ⟨some "http://localhost:8000", none⟩ 0 .timedOut "u7" "q" =
      .err 504 "Bot request timed out. Please try again." ∧
    runBotEndpoint ⟨some "http://localhost:8000", none⟩ 0
        (.errResponse 500 none none) "u7" "q" =
      .err 500 "Bot API error (500): Unknown error" ∧
    runBotEndpoint ⟨some "http://localhost:8000", none⟩ 0
        (.resolved 200 (some ⟨none, none, none, none, none⟩)) "u7" "q" =
      .err 500 "Bot job failed: Invalid response format from bot service" :=
  ⟨rfl, rfl, rfl, rfl⟩

/-- The `jwt.verify` stand-in used to evaluate the auth middleware on an
expired and on an invalid token. -/
def demoVerifyC3 : String → VerifyOutcome := fun t =>
  if t == "expiredtok" then .expiredErr
  else if t == "badtok" then .invalidErr
  else .ok ⟨"u1", "alice", "al@x.io"⟩

/-- C3: evaluation of the auth middleware. A missing token gets its own
401 error, but a correctly-signed expired token and a token with a bad
signature produce byte-identical 401 responses — the expired case is not
distinct, contradicting the claim. -/
theorem auth_expired_same_as_invalid :
    authMiddleware demoVerifyC3 (some "Bearer expiredtok") =
      .denied 401 "Token is not valid" ∧
    authMiddleware demoVerifyC3 (some "Bearer badtok") =
      .denied 401 "Token is not valid" ∧
    authMiddleware demoVerifyC3 (some "Bearer expiredtok") =
      authMiddleware demoVerifyC3 (some "Bearer badtok") ∧
    authMiddleware demoVerifyC3 none =
      .denied 401 "No token, authorization denied" :=
  ⟨rfl, rfl, rfl, rfl⟩

/-- C5: evaluation of registerUser on a duplicate-key write error. When
a concurrent registration commits between the pre-check (which saw an
empty store) and `save()` (which sees the committed duplicate), the
unique-index violation is not a ValidationError and falls to the generic
500, unlike the 400 field-tagged conflict the pre-check produces. -/
theorem register_duplicate_write_eval :
    registerUser (fun p => p) []
        [{ _id := "1", name := "Bob", email := "bob@x.io",
           username := some "bob", password := "h", databaseUri := none,
           botEndpoint := none, schedulerEndpoint := none,
           scraperEndpoint := none }]
        ⟨"Bob", "bob@x.io", "bob", "pw"⟩ =
      .serverError "Server error during registration" ∧
    registerUser (fun p => p)
        [{ _id := "1", name := "Bob", email := "bob@x.io",
           username := some "bob", password := "h", databaseUri := none,
           botEndpoint := none, schedulerEndpoint := none,
           scraperEndpoint := none }]
        [{ _id := "1", name := "Bob", email := "bob@x.io",
           username := some "bob", password := "h", databaseUri := none,
           botEndpoint := none, schedulerEndpoint := none,
           scraperEndpoint := none }]
        ⟨"Bob", "bob@x.io", "bob", "pw"⟩ =
      .conflict "Email already in use" "email" ∧
    RegisterResponse.serverError "Server error during registration" ≠
      RegisterResponse.conflict "Email already in use" "email" :=
  ⟨rfl, rfl, by decide⟩

theorem splitSp_no_space (l : List Char) (h : ∀ c ∈ l, c ≠ ' ') :
    splitSp l = [l] := by
  induction l with
  | nil => rfl
  | cons c cs ih =>
    have hc : c ≠ ' ' := h c (List.mem_cons_self c cs)
    have ih2 := ih (fun d hd => h d (List.mem_cons_of_mem c hd))
    rw [splitSp, if_neg hc, ih2]

theorem splitSp_two_words (w t : List Char) (hw : ∀ c ∈ w, c ≠ ' ')
    (ht : ∀ c ∈ t, c ≠ ' ') : splitSp (w ++ ' ' :: t) = [w, t] := by
  induction w with
  | nil =>
    rw [List.nil_append, splitSp, if_pos rfl, splitSp_no_space t ht]
  | cons c cs ih =>
    have hc : c ≠ ' ' := hw c (List.mem_cons_self c cs)
    have ih2 := ih (fun d hd => hw d (List.mem_cons_of_mem c hd))
    rw [List.cons_append, splitSp, if_neg hc, ih2]

/-- C4: login anti-enumeration. Whenever one login request names an
unknown username and another names a known username with a password the
hash comparison rejects, the two responses are the same 401 response
with the identical `Invalid credentials` payload. -/
theorem login_anti_enumeration (compare : String → String → Bool)
    (sign : TokenPayload → String) (store : List Account)
    (u1 p1 u2 p2 : String)
    (h1 : store.find? (fun a => a.username == some (jsTrim u1)) = none)
    (h2 : ∃ acct, store.find? (fun a => a.username == some (jsTrim u2)) = some acct ∧
        compare p2 acct.password = false) :
    loginUser compare sign store u1 p1 = .err 401 "Invalid credentials" ∧
      loginUser compare sign store u2 p2 = .err 401 "Invalid credentials" ∧
      loginUser compare sign store u1 p1 = loginUser compare sign store u2 p2 := by
  obtain ⟨acct, hfind, hcmp⟩ := h2
  have e1 : loginUser compare sign store u1 p1 = .err 401 "Invalid credentials" := by
    rw [loginUser, h1]
  have e2 : loginUser compare sign store u2 p2 = .err 401 "Invalid credentials" := by
    rw [loginUser, hfind]
    simp [hcmp]
  exact ⟨e1, e2, by rw [e1, e2]⟩

theorem login_anti_enumeration_witness :
    loginUser (fun _ _ => false) (fun _ => "tok")
        [{ _id := "1", name := "Al", email := "al@x.io",
           username := some "alice", password := "h", databaseUri := none,
           botEndpoint := none, schedulerEndpoint := none,
           scraperEndpoint := none }] "nouser" "x" =
      .err 401 "Invalid credentials" ∧
    loginUser (fun _ _ => false) (fun _ => "tok")
        [{ _id := "1", name := "Al", email := "al@x.io",
           username := some "alice", password := "h", databaseUri := none,
           botEndpoint := none, schedulerEndpoint := none,
           scraperEndpoint := none }] "alice" "wrongpass" =
      .err 401 "Invalid credentials" ∧
    loginUser (fun _ _ => false) (fun _ => "tok")
        [{ _id := "1", name := "Al", email := "al@x.io",
           username := some "alice", password := "h", databaseUri := none,
           botEndpoint := none, schedulerEndpoint := none,
           scraperEndpoint := none }] "nouser" "x" =
      loginUser (fun _ _ => false) (fun _ => "tok")
        [{ _id := "1", name := "Al", email := "al@x.io",
           username := some "alice", password := "h", databaseUri := none,
           botEndpoint := none, schedulerEndpoint := none,
           scraperEndpoint := none }] "alice" "wrongpass" :=
  login_anti_enumeration (fun _ _ => false) (fun _ => "tok") _ "nouser" "x"
    "alice" "wrongpass" rfl
    ⟨{ _id := "1", name := "Al", email := "al@x.io",
       username := some "alice", password := "h", databaseUri := none,
       botEndpoint := none, schedulerEndpoint := none,
       scraperEndpoint := none }, rfl, rfl⟩

/-- C10: the middleware never checks the scheme word. For every header
of the form `<word> <token>` whose token verifies, verification succeeds
and the decoded payload is attached, whatever the first word is; and a
header with no second space-separated word is treated as a missing
token. -/
theorem auth_ignores_scheme_word (verify : String → VerifyOutcome)
    (w tok hdr : String) (p : TokenPayload)
    (hw : ∀ c ∈ w.toList, c ≠ ' ') (ht : ∀ c ∈ tok.toList, c ≠ ' ')
    (hne : tok ≠ "") (hv : verify tok = .ok p)
    (hh : ∀ c ∈ hdr.toList, c ≠ ' ') :
    authMiddleware verify (some (w ++ " " ++ tok)) = .allowed p ∧
      authMiddleware verify (some hdr) =
        .denied 401 "No token, authorization denied" := by
  constructor
  · have hsplit : jsSplitSpace (w ++ " " ++ tok) = [w, tok] := by
      have hl : (w ++ " " ++ tok).toList = w.toList ++ ' ' :: tok.toList := by
        show (w ++ " " ++ tok).data = w.data ++ ' ' :: tok.data
        rw [String.data_append, String.data_append, List.append_assoc]
        rfl
      rw [jsSplitSpace, hl, splitSp_two_words _ _ hw ht]
      rfl
    have htruthy : (tok == "") = false := by
      simp [hne]
    show authCore verify ((jsSplitSpace (w ++ " " ++ tok)).get? 1) = _
    rw [hsplit]
    show authCore verify (some tok) = _
    rw [authCore]
    simp [isTruthyS, htruthy, hv]
  · have hsplit : jsSplitSpace hdr = [hdr] := by
      rw [jsSplitSpace, splitSp_no_space _ hh]
      rfl
    show authCore verify ((jsSplitSpace hdr).get? 1) = _
    rw [hsplit]
    rfl

theorem auth_ignores_scheme_word_witness :
    authMiddleware
        (fun t => if t == "tok123" then .ok ⟨"u1", "alice", "al@x.io"⟩
          else .invalidErr)
        (some ("Token" ++ " " ++ "tok123")) =
      .allowed ⟨"u1", "alice", "al@x.io"⟩ ∧
      authMiddleware
        (fun t => if t == "tok123" then .ok ⟨"u1", "alice", "al@x.io"⟩
          else .invalidErr)
        (some "solotoken") =
        .denied 401 "No token, authorization denied" :=
  auth_ignores_scheme_word
    (fun t => if t == "tok123" then .ok ⟨"u1", "alice", "al@x.io"⟩
      else .invalidErr)
    "Token" "tok123" "solotoken" ⟨"u1", "alice", "al@x.io"⟩
    (by decide) (by decide) (by decide) rfl (by decide)

theorem string_eq_of_data (s t : String) (h : s.data = t.data) : s = t :=
  String.ext h

theorem truthy_of_ne (s : String) (h : s ≠ "") : isTruthyS (some s) = true := by
  simp [isTruthyS, h]

theorem ensure_step_cases (h : String → String) (env : Env)
    (a a' : Account) (saved : Bool)
    (hstep : ensureUserResources h env (some a) = .ok (some a', saved)) :
    (a' = a ∧ saved = false) ∨
      ∃ r, provisionResourcesForUser h env ⟨some a._id, a.username⟩ = .ok r ∧
        a' = { a with
          databaseUri := some r.databaseUri
          botEndpoint := some r.botEndpoint
          schedulerEndpoint := some r.schedulerEndpoint
          scraperEndpoint := some r.scraperEndpoint } ∧ saved = true := by
  rw [ensureUserResources] at hstep
  by_cases hn : needsProvisioning a = true
  · rw [if_pos hn] at hstep
    rcases hp : provisionResourcesForUser h env ⟨some a._id, a.username⟩ with e | r
    · rw [hp] at hstep
      cases hstep
    · rw [hp] at hstep
      injection hstep with h1
      rw [Prod.ext_iff] at h1
      obtain ⟨h2, h3⟩ := h1
      injection h2 with h4
      exact Or.inr ⟨r, rfl, h4.symm, h3.symm⟩
  · rw [if_neg hn] at hstep
    injection hstep with h1
    rw [Prod.ext_iff] at h1
    obtain ⟨h2, h3⟩ := h1
    injection h2 with h4
    exact Or.inl ⟨h4.symm, h3.symm⟩

theorem ensure_result_provisioned (h : String → String) (env : Env)
    (a a' : Account) (r : Resources)
    (hp : provisionResourcesForUser h env ⟨some a._id, a.username⟩ = .ok r)
    (ha' : a' = { a with
      databaseUri := some r.databaseUri
      botEndpoint := some r.botEndpoint
      schedulerEndpoint := some r.schedulerEndpoint
      scraperEndpoint := some r.scraperEndpoint }) :
    allPresent a' := by
  obtain ⟨f1, f2, f3, f4⟩ := provision_ok_fields h env _ r hp
  subst ha'
  exact ⟨truthy_of_ne _ f1, truthy_of_ne _ f2, truthy_of_ne _ f3,
    truthy_of_ne _ f4⟩

/-- C6: every account reachable through register and any sequence of
successful ensureUserResources calls has its four resource locators
either all absent or all present, never partially set. -/
theorem locators_all_or_nothing (h : String → String) (env : Env)
    (a : Account) (ha : Reachable h env a) : allAbsent a ∨ allPresent a := by
  induction ha with
  | registered a h1 h2 h3 h4 => exact Or.inl ⟨h1, h2, h3, h4⟩
  | ensured a a' saved ha hstep ih =>
    rcases ensure_step_cases h env a a' saved hstep with ⟨heq, _⟩ | ⟨r, hp, ha', _⟩
    · rw [heq]
      exact ih
    · exact Or.inr (ensure_result_provisioned h env a a' r hp ha')

theorem locators_all_or_nothing_witness :
    allAbsent { _id := "u1", name := "Al", email := "al@x.io",
                username := some "alice", password := "h",
                databaseUri := none, botEndpoint := none,
                schedulerEndpoint := none, scraperEndpoint := none } ∨
      allPresent { _id := "u1", name := "Al", email := "al@x.io",
                   username := some "alice", password := "h",
                   databaseUri := none, botEndpoint := none,
                   schedulerEndpoint := none, scraperEndpoint := none } :=
  locators_all_or_nothing (fun s => s) ⟨none, none, none, none⟩ _
    (Reachable.registered _ rfl rfl rfl rfl)

/-- C1 corrected, counterexample part: changing the username does not
always change the slug component of the locators. The usernames `Alice`
and `alice` differ, yet their slugs coincide, and the resource
identifiers built for the same account from either username carry the
identical slug component `alice-`. -/
theorem provisioning_slug_component_counterexample :
    ("Alice" : String) ≠ "alice" ∧
      toSlug (some "Alice") = toSlug (some "alice") ∧
      jsSliceTo 6 (buildResourceId (fun s => s) "u1" "Alice") = "alice-" ∧
      jsSliceTo 6 (buildResourceId (fun s => s) "u1" "alice") = "alice-" := by
  refine ⟨by decide, by decide, by decide, by decide⟩

/-- C1 amended: provisioning is idempotent and deterministic — a second
ensureUserResources run on the result of a successful run returns it
unchanged without writing (and, the embedding being a pure function of
`(accountId, username)` and the configuration, no clock, randomness or
process identity enters); the slug component of every locator is
`toSlug username` followed by the hyphen and fingerprint, so changing
the username changes the slug component exactly when the two usernames
have different slugs (not for every changed username). -/
theorem provisioning_idempotent_deterministic :
    (∀ (h : String → String) (env : Env) (a a' : Account) (saved : Bool),
        ensureUserResources h env (some a) = .ok (some a', saved) →
        ensureUserResources h env (some a') = .ok (some a', false)) ∧
      (∀ (h : String → String) (uid u : String),
        buildResourceId h uid u =
          toSlug (some u) ++ "-" ++ jsSliceTo 10 (h (uid ++ ":" ++ u))) ∧
      (∀ (h : String → String) (uid u u' : String),
        (∀ x, 10 ≤ (h x).length) →
        toSlug (some u) ≠ toSlug (some u') →
        buildResourceId h uid u ≠ buildResourceId h uid u') := by
  refine ⟨?_, ?_, ?_⟩
  · intro h env a a' saved hstep
    rcases ensure_step_cases h env a a' saved hstep with ⟨heq, hsv⟩ | ⟨r, hp, ha', _⟩
    · subst heq
      subst hsv
      exact hstep
    · have hall := ensure_result_provisioned h env a a' r hp ha'
      exact ensure_noop_aux h env a' hall.1 hall.2.1 hall.2.2.1 hall.2.2.2
  · intro h uid u
    rfl
  · intro h uid u u' hlen hslug heq
    apply hslug
    have hdata : (toSlug (some u) ++ "-").data ++ (jsSliceTo 10 (h (uid ++ ":" ++ u))).data =
        (toSlug (some u') ++ "-").data ++ (jsSliceTo 10 (h (uid ++ ":" ++ u'))).data := by
      have := congrArg String.data heq
      rw [buildResourceId, buildResourceId, String.data_append, String.data_append] at this
      exact this
    have hlen10 : ∀ x : String, (jsSliceTo 10 (h x)).data.length = 10 := by
      intro x
      show ((h x).toList.take 10).length = 10
      rw [List.length_take]
      exact Nat.min_eq_left (hlen x)
    have h1 := List.append_inj' hdata (by rw [hlen10, hlen10])
    have h2 : (toSlug (some u)).data ++ ("-" : String).data =
        (toSlug (some u')).data ++ ("-" : String).data := by
      have := h1.1
      rw [String.data_append, String.data_append] at this
      exact this
    have h3 := List.append_inj' h2 rfl
    exact string_eq_of_data _ _ h3.1

theorem provisioning_idempotent_deterministic_witness :
    ensureUserResources (fun s => s) ⟨none, none, none, none⟩
        (some { _id := "u1", name := "Al", email := "al@x.io",
                username := some "alice", password := "h",
                databaseUri := some "mongodb://localhost:27017/rag_alice_456789",
                botEndpoint := some "http://localhost:8000/api/bots/alice-0123456789",
                schedulerEndpoint := some "http://localhost:9000/api/schedules/alice-0123456789",
                scraperEndpoint := some "http://localhost:7000/api/scrape/alice-0123456789" }) =
      .ok (some { _id := "u1", name := "Al", email := "al@x.io",
                  username := some "alice", password := "h",
                  databaseUri := some "mongodb://localhost:27017/rag_alice_456789",
                  botEndpoint := some "http://localhost:8000/api/bots/alice-0123456789",
                  schedulerEndpoint := some "http://localhost:9000/api/schedules/alice-0123456789",
                  scraperEndpoint := some "http://localhost:7000/api/scrape/alice-0123456789" },
          false) ∧
      buildResourceId (fun _ => "0123456789abcdef0123456789abcdef01234567")
          "u1" "alice" ≠
        buildResourceId (fun _ => "0123456789abcdef0123456789abcdef01234567")
          "u1" "b0b" :=
  ⟨provisioning_idempotent_deterministic.1 (fun s => s) ⟨none, none, none, none⟩
      { _id := "u1", name := "Al", email := "al@x.io",
                username := some "alice", password := "h",
                databaseUri := some "mongodb://localhost:27017/rag_alice_456789",
                botEndpoint := some "http://localhost:8000/api/bots/alice-0123456789",
                schedulerEndpoint := some "http://localhost:9000/api/schedules/alice-0123456789",
                scraperEndpoint := some "http://localhost:7000/api/scrape/alice-0123456789" }
      { _id := "u1", name := "Al", email := "al@x.io",
                username := some "alice", password := "h",
                databaseUri := some "mongodb://localhost:27017/rag_alice_456789",
                botEndpoint := some "http://localhost:8000/api/bots/alice-0123456789",
                schedulerEndpoint := some "http://localhost:9000/api/schedules/alice-0123456789",
                scraperEndpoint := some "http://localhost:7000/api/scrape/alice-0123456789" }
      false rfl,
    provisioning_idempotent_deterministic.2.2
      (fun _ => "0123456789abcdef0123456789abcdef01234567") "u1" "alice" "b0b"
      (fun _ =>
        (by decide :
          10 ≤ ("0123456789abcdef0123456789abcdef01234567" : String).length))
      (by decide)⟩

theorem dropWhile_append_cases (p : Char → Bool) (u v : List Char) :
    (u ++ v).dropWhile p =
      if u.dropWhile p = [] then v.dropWhile p else u.dropWhile p ++ v := by
  induction u with
  | nil => simp
  | cons c cs ih =>
    by_cases hc : p c
    · rw [List.cons_append, List.dropWhile_cons, if_pos hc, ih,
        List.dropWhile_cons, if_pos hc]
    · rw [List.cons_append, List.dropWhile_cons, if_neg hc,
        List.dropWhile_cons, if_neg hc]
      simp

theorem dropTrailing_cons (p : Char → Bool) (a : Char) (x : List Char) :
    dropTrailing p (a :: x) =
      if dropTrailing p x = [] then dropTrailing p [a]
      else a :: dropTrailing p x := by
  rw [dropTrailing, List.reverse_cons, dropWhile_append_cases]
  by_cases hx : x.reverse.dropWhile p = []
  · have hx2 : dropTrailing p x = [] := by rw [dropTrailing, hx]; rfl
    rw [if_pos hx, if_pos hx2]
    rfl
  · have hx2 : ¬ dropTrailing p x = [] := by
      rw [dropTrailing]
      simpa using hx
    rw [if_neg hx, if_neg hx2, List.reverse_append]
    rfl

theorem stripHyphens_hyphen_cons (x : List Char) :
    stripHyphens ('-' :: x) = stripHyphens x := by
  rw [stripHyphens, stripHyphens, dropTrailH, dropTrailH, dropTrailing_cons]
  by_cases hx : dropTrailing (fun c => c == '-') x = []
  · rw [if_pos hx, hx]
    rfl
  · rw [if_neg hx, dropLeadH, dropLeadH, List.dropWhile_cons]
    simp

theorem collapseFrom_true_append (w m : List Char)
    (hw : ∀ c ∈ w, isAlnum c = false) :
    collapseFrom true (w ++ m) = collapseFrom true m := by
  induction w with
  | nil => rfl
  | cons c cs ih =>
    have hc := hw c (List.mem_cons_self c cs)
    have ih2 := ih (fun d hd => hw d (List.mem_cons_of_mem c hd))
    rw [List.cons_append, collapseFrom, if_neg (by simp [hc]), if_pos rfl, ih2]

theorem collapseFrom_true_nil (w : List Char)
    (hw : ∀ c ∈ w, isAlnum c = false) : collapseFrom true w = [] := by
  have := collapseFrom_true_append w [] hw
  rwa [List.append_nil w] at this

theorem stripHyphens_true_false (m : List Char) :
    stripHyphens ('-' :: collapseFrom true m) =
      stripHyphens (collapseNonAlnum m) := by
  cases m with
  | nil => rfl
  | cons d ds =>
    by_cases hd : isAlnum d = true
    · have e1 : collapseFrom true (d :: ds) = d :: collapseFrom false ds := by
        rw [collapseFrom, if_pos hd]
      have e2 : collapseNonAlnum (d :: ds) = d :: collapseFrom false ds := by
        rw [collapseNonAlnum, collapseFrom, if_pos hd]
      rw [e1, e2, stripHyphens_hyphen_cons]
    · have e1 : collapseFrom true (d :: ds) = collapseFrom true ds := by
        rw [collapseFrom, if_neg (by simpa using hd), if_pos rfl]
      have e2 : collapseNonAlnum (d :: ds) = '-' :: collapseFrom true ds := by
        rw [collapseNonAlnum, collapseFrom, if_neg (by simpa using hd)]
        rfl
      rw [e1, e2]

theorem strip_collapse_drop_lead (w m : List Char)
    (hw : ∀ c ∈ w, isAlnum c = false) :
    stripHyphens (collapseNonAlnum (w ++ m)) =
      stripHyphens (collapseNonAlnum m) := by
  cases w with
  | nil => rfl
  | cons c cs =>
    have hc := hw c (List.mem_cons_self c cs)
    have hcs : ∀ d ∈ cs, isAlnum d = false :=
      fun d hd => hw d (List.mem_cons_of_mem c hd)
    have e : collapseNonAlnum (c :: cs ++ m) =
        '-' :: collapseFrom true (cs ++ m) := by
      rw [collapseNonAlnum, List.cons_append, collapseFrom,
        if_neg (by simp [hc])]
      rfl
    rw [e, collapseFrom_true_append cs m hcs, stripHyphens_true_false]

theorem dropTrail_collapse_nonalnum (w : List Char) (b : Bool)
    (hw : ∀ c ∈ w, isAlnum c = false) :
    dropTrailH (collapseFrom b w) = [] := by
  cases b with
  | true => rw [collapseFrom_true_nil w hw]; rfl
  | false =>
    cases w with
    | nil => rfl
    | cons c cs =>
      have hc := hw c (List.mem_cons_self c cs)
      have hcs : ∀ d ∈ cs, isAlnum d = false :=
        fun d hd => hw d (List.mem_cons_of_mem c hd)
      rw [collapseFrom, if_neg (by simp [hc]), if_neg (by simp),
        collapseFrom_true_nil cs hcs]
      rfl

theorem dropTrailing_cons_congr (p : Char → Bool) (a : Char) (x y : List Char)
    (h : dropTrailing p x = dropTrailing p y) :
    dropTrailing p (a :: x) = dropTrailing p (a :: y) := by
  rw [dropTrailing_cons p a x, dropTrailing_cons p a y, h]

theorem strip_collapse_drop_trail_aux (m : List Char) :
    ∀ (b : Bool) (w : List Char), (∀ c ∈ w, isAlnum c = false) →
      dropTrailH (collapseFrom b (m ++ w)) = dropTrailH (collapseFrom b m) := by
  induction m with
  | nil =>
    intro b w hw
    rw [List.nil_append]
    exact dropTrail_collapse_nonalnum w b hw
  | cons c cs ih =>
    intro b w hw
    by_cases hc : isAlnum c = true
    · have e1 : collapseFrom b (c :: cs ++ w) =
          c :: collapseFrom false (cs ++ w) := by
        rw [List.cons_append, collapseFrom, if_pos hc]
      have e2 : collapseFrom b (c :: cs) = c :: collapseFrom false cs := by
        rw [collapseFrom, if_pos hc]
      rw [e1, e2]
      exact dropTrailing_cons_congr _ c _ _ (ih false w hw)
    · cases b with
      | true =>
        have e1 : collapseFrom true (c :: cs ++ w) =
            collapseFrom true (cs ++ w) := by
          rw [List.cons_append, collapseFrom, if_neg (by simpa using hc),
            if_pos rfl]
        have e2 : collapseFrom true (c :: cs) = collapseFrom true cs := by
          rw [collapseFrom, if_neg (by simpa using hc), if_pos rfl]
        rw [e1, e2]
        exact ih true w hw
      | false =>
        have e1 : collapseFrom false (c :: cs ++ w) =
            '-' :: collapseFrom true (cs ++ w) := by
          rw [List.cons_append, collapseFrom, if_neg (by simpa using hc)]
          rfl
        have e2 : collapseFrom false (c :: cs) = '-' :: collapseFrom true cs := by
          rw [collapseFrom, if_neg (by simpa using hc)]
          rfl
        rw [e1, e2]
        exact dropTrailing_cons_congr _ '-' _ _ (ih true w hw)

theorem strip_collapse_drop_trail (m w : List Char)
    (hw : ∀ c ∈ w, isAlnum c = false) :
    stripHyphens (collapseNonAlnum (m ++ w)) =
      stripHyphens (collapseNonAlnum m) :=
  congrArg dropLeadH (strip_collapse_drop_trail_aux m false w hw)

theorem ws_lower_not_alnum (c : Char) (h : isJsWs c = true) :
    isAlnum (jsToLower c) = false := by
  rw [isJsWs] at h
  simp only [Bool.or_eq_true, beq_iff_eq] at h
  rcases h with ((((((h | h) | h) | h) | h) | h) | h) <;> subst h <;> decide

theorem map_lower_all_not_alnum (w : List Char)
    (hw : ∀ c ∈ w, isJsWs c = true) :
    ∀ c ∈ w.map jsToLower, isAlnum c = false := by
  intro c hc
  obtain ⟨d, hd, rfl⟩ := List.mem_map.1 hc
  exact ws_lower_not_alnum d (hw d hd)

theorem reverse_decomp (p : Char → Bool) (d : List Char) :
    d = dropTrailing p d ++ (d.reverse.takeWhile p).reverse := by
  rw [dropTrailing, ← List.reverse_append, List.takeWhile_append_dropWhile,
    List.reverse_reverse]

theorem jsTrimL_decomp (l : List Char) :
    ∃ w1 w2, (∀ c ∈ w1, isJsWs c = true) ∧ (∀ c ∈ w2, isJsWs c = true) ∧
      l = w1 ++ (jsTrimL l ++ w2) := by
  refine ⟨l.takeWhile isJsWs,
    ((l.dropWhile isJsWs).reverse.takeWhile isJsWs).reverse, ?_, ?_, ?_⟩
  · intro c hc
    exact List.mem_takeWhile_imp hc
  · intro c hc
    rw [List.mem_reverse] at hc
    exact List.mem_takeWhile_imp hc
  · conv_lhs => rw [← List.takeWhile_append_dropWhile isJsWs l]
    rw [List.append_cancel_left_eq]
    exact reverse_decomp isJsWs (l.dropWhile isJsWs)

theorem trim_irrelevant (l : List Char) :
    stripHyphens (collapseNonAlnum ((jsTrimL l).map jsToLower)) =
      stripHyphens (collapseNonAlnum (l.map jsToLower)) := by
  obtain ⟨w1, w2, hw1, hw2, hdec⟩ := jsTrimL_decomp l
  conv_rhs => rw [hdec]
  rw [List.map_append, List.map_append]
  rw [strip_collapse_drop_lead _ _ (map_lower_all_not_alnum w1 hw1)]
  rw [strip_collapse_drop_trail _ _ (map_lower_all_not_alnum w2 hw2)]

/-- C9: the implemented slug computation agrees, on every input, with
the specified one — the username lowercased, every maximal run of
non-alphanumeric characters collapsed to a single hyphen, leading and
trailing hyphens removed, with the fixed default for an empty result or
an absent input. In particular the whitespace pre-trim performed by the
implementation never changes the outcome. -/
theorem toSlug_matches_spec (v : Option String) : toSlug v = toSlugSpec v := by
  cases v with
  | none => rfl
  | some s =>
    rw [toSlug, toSlugSpec]
    by_cases hs : s == ""
    · rw [if_pos hs]
      have hs2 : s = "" := by simpa using hs
      subst hs2
      rfl
    · rw [if_neg hs]
      simp only [trim_irrelevant]

end RAGAdmin
